import Mathlib

/-!
Verification development for the frybox transfer protocol core
(`src/exfer.c`).  The definitions below are a shallow embedding of the
server-side handler `page_xfer`, the receive routine
`xfer_accept_atom_node`, the send routine `send_node`, the `have`-sweep
`send_root`, the authentication routine `check_login`, and the client
cycle bookkeeping from `client_sync` (`mxPhantomReq` / `request_partials`).

External collaborators (the SQLite store, hash primitives, the delta
codec, the CGI layer) are modelled as explicit state (`Store`) or as
function parameters collected in `Env`; the control flow and all
branch conditions are translated from the C source.
-/

namespace Frybox

/-- A byte string (payload contents) is a list of byte values. -/
abbrev Bytes := List Nat

/-- True for an ASCII hexadecimal digit (0-9, a-f, A-F). -/
def isHexDigit (c : Char) : Bool :=
  (48 ≤ c.toNat && c.toNat ≤ 57) ||
  (97 ≤ c.toNat && c.toNat ≤ 102) ||
  (65 ≤ c.toNat && c.toNat ≤ 70)

/-- Model of `blob_is_hname`: a hash name is 40 or 64 hex characters. -/
def blob_is_hname (s : String) : Bool :=
  (s.data.length == 40 || s.data.length == 64) && s.data.all isHexDigit

/-- Decimal digits of a string interpreted as a natural number. -/
def digitsToNat (s : String) : Nat :=
  s.data.foldl (fun n c => n * 10 + (c.toNat - 48)) 0

/-- Model of `blob_is_int`: parse a non-negative decimal token. -/
def blob_is_int (s : String) : Option Int :=
  if s.data ≠ [] && s.data.all (fun c => 48 ≤ c.toNat && c.toNat ≤ 57) then
    some (digitsToNat s)
  else none

/-- Capability bits of the global `g.perm` structure. -/
structure Perm where
  read : Bool
  write : Bool
  clone : Bool
  priv : Bool
  admin : Bool
deriving DecidableEq

/-- A row of the USER table: password, capability string, user id. -/
structure UserRow where
  pw : String
  cap : String
  uid : Nat
deriving DecidableEq

/-- The slice of the global `g` state touched by login handling:
capabilities, the numeric user id, and the recorded login name/nonce. -/
structure GState where
  perm : Perm
  userUid : Nat
  zLogin : Option String
  zNonce : Option String
deriving DecidableEq

/-- One line of a transfer request: a comment line (starting with `#`),
a blank line, or a card given by its whitespace-separated tokens plus
the raw payload bytes that follow the line (payload-bearing cards
extract a token-determined count of these bytes, cf. `blob_extract`). -/
inductive Msg where
  | comment (text : String)
  | blank
  | card (tok : List String) (payload : Bytes)
deriving DecidableEq

/-- The repository store visible to `exfer.c`: the `node` table mapping
hash names to numeric ids, stored contents, the `phantom`, `private`,
`root` and `partial` tables, and the `blob` table's id-to-hash map used
by `send_node`.  `nextId` feeds fresh record ids. -/
structure Store where
  node : List (String × Nat)
  contents : List (Nat × Bytes)
  blobUuid : List (Nat × String)
  phantom : List Nat
  privateIds : List Nat
  root : List Nat
  partials : List (String × Nat)
  deltaSaved : List (Nat × Nat)
  nextId : Nat
deriving DecidableEq

/-- Look up the record id of a hash name in the `node` table (0 if absent). -/
def store_lookup_node (s : Store) (uuid : String) : Nat :=
  (((s.node.find? (fun p => p.1 == uuid)).map (fun p => p.2)).getD 0)

/-- Modelled from the spec: the Store collaborator's `new-phantom`
operation (`content_new` is external to `src/`): create a phantom
record for a name, returning a fresh id. -/
def content_new (s : Store) (uuid : String) (isPriv : Bool) : Nat × Store :=
  let rid := s.nextId
  (rid, { s with node := (uuid, rid) :: s.node,
                 phantom := rid :: s.phantom,
                 privateIds := if isPriv then rid :: s.privateIds else s.privateIds,
                 nextId := s.nextId + 1 })

/-- Modelled from the spec: the Store collaborator's `put` operation
(`content_put_ex` is external to `src/`): insert content under a hash
name, clearing any phantom state; a nonzero `srcid` records the content
as a delta against that basis (`put with source`).  Returns the id. -/
def content_put_ex (s : Store) (content : Bytes) (uuid : String)
    (srcid : Nat) (isPriv : Bool) : Nat × Store :=
  let rid := store_lookup_node s uuid
  if rid ≠ 0 then
    (rid, { s with contents := (rid, content) :: s.contents.filter (fun p => p.1 ≠ rid),
                   phantom := s.phantom.filter (fun n => n ≠ rid),
                   deltaSaved := if srcid ≠ 0 then (rid, srcid) :: s.deltaSaved else s.deltaSaved })
  else
    let rid := s.nextId
    (rid, { s with node := (uuid, rid) :: s.node,
                   contents := (rid, content) :: s.contents,
                   privateIds := if isPriv then rid :: s.privateIds else s.privateIds,
                   deltaSaved := if srcid ≠ 0 then (rid, srcid) :: s.deltaSaved else s.deltaSaved,
                   nextId := s.nextId + 1 })

/-- Modelled from the spec: the Store collaborator's `get` operation
(`content_get` is external to `src/`): returns the stored content of a
record, or none for id 0, a phantom, or a missing record. -/
def content_get (s : Store) (rid : Nat) : Option Bytes :=
  if rid = 0 then none
  else ((s.contents.find? (fun p => p.1 == rid)).map (fun p => p.2))

/-- Modelled from the spec: `content_is_private` (external to `src/`). -/
def content_is_private (s : Store) (rid : Nat) : Bool :=
  s.privateIds.contains rid

/-- Modelled from the spec: `content_make_public` (external to `src/`). -/
def content_make_public (s : Store) (rid : Nat) : Store :=
  { s with privateIds := s.privateIds.filter (fun n => n ≠ rid) }

/-- Translation of `nid_from_uuid`: resolve a hash name to a record id,
creating a phantom when requested and no record exists.  (The C body
tests an identifier `phantomize`; its `partial` parameter is the
evident intended source of that flag.) -/
def nid_from_uuid (s : Store) (uuid : String) (phantomize : Bool)
    (isPriv : Bool) : Nat × Store :=
  let rid := store_lookup_node s uuid
  if rid = 0 && phantomize then content_new s uuid isPriv else (rid, s)

/-- Content stored under a hash name, via the `node` table. -/
def store_content_of (s : Store) (uuid : String) : Option Bytes :=
  content_get s (store_lookup_node s uuid)

/-- Translation of `peer_have`: record a nonzero record id in the
`peerhave` scratch set (INSERT OR IGNORE semantics). -/
def insertId (n : Nat) (l : List Nat) : List Nat :=
  if n = 0 then l else if l.contains n then l else n :: l

/-- The mutable transfer state (struct `Xfer` plus the fields the code
uses beyond the declared struct): the output blob, error text, the
per-session scratch sets, the counters, and the policy knobs. -/
structure XferState where
  err : String
  pOut : String
  store : Store
  peerhaveIds : List Nat
  peerneed : List String
  nFileRcvd : Nat
  nDeltaRcvd : Nat
  nDanglingFile : Nat
  nFileSent : Nat
  nDeltaSent : Nat
  nIGotSent : Nat
  nPrivIGot : Nat
  nINeedSent : Nat
  mxSend : Int
  maxTime : Int
  syncPrivate : Bool
  remoteVersion : Nat
  remoteDate : Nat
  resync : Nat
  nextIsPrivate : Bool
deriving DecidableEq

/-- External collaborators of `exfer.c`, passed as parameters: the user
table, hash primitives (`sha1sum_blob`, `sha1_shared_secret`,
`hname_verify_hash`, `check_tail_hash`), shunning, the delta codec,
configuration values, the clock, and the routines of this repository
that are declared but not defined under `src/` (`send_delta_native`,
`send_delta_parent`, `send_compressed_file`, `send_unversioned_catalog`,
`xfer_accept_list_node`, `create_list_node`). -/
structure Env where
  userTable : String → Option UserRow
  sha1 : String → String
  sha1SharedSecret : String → String → String
  remoteUser : Option String
  remoteUserOk : Bool
  capSet : String → Perm → Perm
  hashOk : Bytes → String → Bool
  isShunned : String → Bool
  tailOk : String → List Msg → Bool
  deltaApply : Bytes → Bytes → Bytes
  projCode : String
  serverCode : String
  uvSync : Bool
  schemaOutOfDate : Bool
  disableLogin : Bool
  initPerm : Perm
  maxDownload : Int
  maxDownloadTime : Int
  now : Int
  nowStr : String
  sendDeltaNative : XferState → Nat → Bool → String → Int × XferState
  sendDeltaParent : XferState → Nat → Bool → Bytes → String → Int × XferState
  sendCompressedFile : XferState → Nat → XferState
  sendUvCatalog : XferState → XferState
  acceptList : XferState → List String → Bytes → XferState
  createListNode : Store → Store

/-- Render payload bytes as part of the outbound text blob. -/
def bytesToString (b : Bytes) : String :=
  String.mk (b.map (fun n => Char.ofNat n))

/-- Modelled from the spec: `xfer_cannot_send_sha3_error` (external to
`src/`) emits an error card when the peer cannot accept SHA3 names. -/
def sha3ErrCard : String :=
  "error cannot send SHA3-256 artifacts to a peer that does not support them\n"

/-- Nonempty test for the optional expected-name argument of `send_node`
(`pUuid && blob_size(pUuid)>0`). -/
def pUuidNonEmpty : Option String → Bool
  | some s => !(s.isEmpty)
  | none => false

/-- The hash name recorded for a record id in the `blob` table
(`SELECT uuid FROM blob WHERE rid=... AND size>=0`); empty if absent. -/
def blobUuidOf (s : Store) (rid : Nat) : String :=
  (((s.blobUuid.find? (fun p => p.1 == rid)).map (fun p => p.2)).getD "")

/-- Translation of the tail of `send_node` after the checks on privacy,
`peerhave`, the blob-table hash, SHA3 support and the expected name:
the shunning test, the back-pressure downgrade to a `have` card, and
the delta/raw emission paths. -/
def send_node_tail (env : Env) (x : XferState) (rid : Nat) (uuid : String)
    (isPriv : Bool) (nativeDelta : Bool) : XferState :=
  if env.isShunned uuid then x
  else if (x.maxTime ≠ -1 ∧ (env.now : Int) ≥ x.maxTime) ∨ x.mxSend ≤ (x.pOut.data.length : Int) then
    { x with pOut := x.pOut ++ (if isPriv then "have " ++ uuid ++ " 1\n"
                                else "have " ++ uuid ++ "\n"),
             nIGotSent := x.nIGotSent + 1 }
  else
    let p1 : Int × XferState :=
      if nativeDelta then
        let p := env.sendDeltaNative x rid isPriv uuid
        (p.1, if p.1 ≠ 0 then { p.2 with nDeltaSent := p.2.nDeltaSent + 1 } else p.2)
      else (0, x)
    let x2 : XferState :=
      if p1.1 = 0 then
        let content := (content_get p1.2.store rid).getD []
        let p2 : Int × XferState :=
          if !nativeDelta && content.length > 100 then
            env.sendDeltaParent p1.2 rid isPriv content uuid
          else (0, p1.2)
        if p2.1 = 0 then
          let y := if isPriv then { p2.2 with pOut := p2.2.pOut ++ "private\n" } else p2.2
          { y with pOut := y.pOut ++ "file " ++ uuid ++ " " ++ toString content.length
                            ++ "\n" ++ bytesToString content,
                   nFileSent := y.nFileSent + 1 }
        else { p2.2 with nDeltaSent := p2.2.nDeltaSent + 1 }
      else p1.2
    { x2 with peerhaveIds := insertId rid x2.peerhaveIds }

/-- Translation of `send_node`: send one artifact, or downgrade to a
`have` announcement, or skip, per the guards of the C routine in order:
privacy teaser, `peerhave` membership, blob-table lookup, SHA3 support,
expected-name comparison, shunning, back-pressure, delta/raw emission. -/
def send_node (env : Env) (x : XferState) (rid : Nat) (pUuid : Option String)
    (nativeDelta : Bool) : XferState :=
  let isPriv := content_is_private x.store rid
  if isPriv && !x.syncPrivate then
    if x.remoteDate ≥ 20200413 ∧ pUuidNonEmpty pUuid then
      { x with pOut := x.pOut ++ "have " ++ pUuid.getD "" ++ " 1\n",
               nIGotSent := x.nIGotSent + 1,
               nPrivIGot := x.nPrivIGot + 1 }
    else x
  else if x.peerhaveIds.contains rid then x
  else
    let uuid := blobUuidOf x.store rid
    if uuid = "" then x
    else if uuid.data.length > 40 ∧ x.remoteVersion < 20000 then
      { x with pOut := x.pOut ++ sha3ErrCard }
    else
      match pUuid with
      | some v => if v ≠ uuid then x else send_node_tail env x rid uuid isPriv nativeDelta
      | none => send_node_tail env x rid uuid isPriv nativeDelta

/-- Translation of `request_partials`: emit an `ineed` card for every
`partial` row not in `peerneed`, up to `maxReq` cards. -/
def request_partials (x : XferState) (maxReq : Nat) : XferState :=
  let rows := (x.store.partials.filter (fun p => !(x.peerneed.contains p.1))).take maxReq
  { x with pOut := x.pOut ++ String.join (rows.map (fun p => "ineed " ++ p.1 ++ " " ++ toString p.2 ++ "\n")),
           nINeedSent := x.nINeedSent + rows.length }

/-- Translation of the user lookup in `check_login`: the SQL query
returns a row only when the login is not one of the four special names
and the stored password is nonempty. -/
def lookupUser (env : Env) (login : String) : Option UserRow :=
  if login = "anonymous" || login = "nobody" || login = "developer" || login = "reader" then
    none
  else
    match env.userTable login with
    | some r => if r.pw.data.length > 0 then some r else none
    | none => none

/-- Translation of `check_login`: verify a `login USER NONCE SIG` card.
Returns the C routine's result code together with the updated global
state; privileges, the user id and the recorded login/nonce change only
on success.  `blob_constant_time_cmp` is modelled by value as equality
(its timing behaviour has no value-level content). -/
def check_login (env : Env) (g : GState) (login nonce sig : String) : Int × GState :=
  if login = "nobody" || login = "anonymous" then (0, g)
  else if env.remoteUser == some login && env.remoteUserOk then (0, g)
  else
    match lookupUser env login with
    | none => (-1, g)
    | some row =>
      let szPw := row.pw.data.length
      let rc : Int := if env.sha1 (nonce ++ row.pw) = sig then 0 else 1
      let rc : Int :=
        if rc ≠ 0 ∧ szPw ≠ 40 then
          if env.sha1 (nonce ++ env.sha1SharedSecret row.pw login) = sig then 0 else 1
        else rc
      if rc = 0 then
        (0, { g with perm := env.capSet row.cap g.perm,
                     userUid := row.uid,
                     zLogin := some login,
                     zNonce := some nonce })
      else (rc, g)

/-- Parse and validate the tokens of an `atom` card, mirroring the
guard of `xfer_accept_atom_node`: exactly five tokens
(`atom HASH SIZE BOFFSET EOFFSET`), a hash name, three integers, with
`0 ≤ size`, `0 ≤ boffset`, `0 ≤ eoffset ≤ size`. -/
def atomGuard (tok : List String) : Option (String × Int × Int × Int) :=
  match tok with
  | [_, h, s, b, e] =>
    if blob_is_hname h then
      match blob_is_int s, blob_is_int b, blob_is_int e with
      | some size, some bo, some eo =>
        if size < 0 ∨ bo < 0 ∨ eo < 0 ∨ eo > size then none
        else some (h, size, bo, eo)
      | _, _, _ => none
    else none
  | _ => none

/-- Common tail of the non-clone path of `xfer_accept_atom_node`: the
hash verification at the end of the routine followed by the store
insert, publication, crosslink hook and `peer_have`.  Note that the
insert runs regardless of the verification outcome. -/
def atom_finish (env : Env) (x : XferState) (uuid : String) (content : Bytes)
    (isPriv : Bool) : XferState :=
  let x := if env.hashOk content uuid then x
           else { x with err := x.err ++ "wrong hash on received artifact: " ++ uuid }
  let p := content_put_ex x.store content uuid 0 isPriv
  let st := if !isPriv then content_make_public p.2 p.1 else p.2
  { x with store := st, peerhaveIds := insertId p.1 x.peerhaveIds }

/-- Translation of `xfer_accept_atom_node`: consume an `atom` card and
insert the node.  The C routine reads its `isPriv` variable before any
assignment; the model fixes that unspecified value at false.  The
`nToken==4` delta paths are translated although the five-token guard
makes them unreachable. -/
def xfer_accept_atom_node (env : Env) (x : XferState) (tok : List String)
    (payload : Bytes) (cloneFlag : Bool) : XferState :=
  match atomGuard tok with
  | none => { x with err := x.err ++ "malformed atom line" }
  | some (uuid, size, bo, eo) =>
    let content := payload.take (eo - bo).toNat
    let isPriv := false
    let x :=
      if bo = 0 ∧ eo = size then
        if env.hashOk content uuid then x
        else { x with err := x.err ++ "wrong hash on received atom: " ++ uuid }
      else x
    if cloneFlag then
      if tok.length = 4 then
        let q := nid_from_uuid x.store (tok.getD 2 "") true isPriv
        let p := content_put_ex q.2 content uuid q.1 isPriv
        { x with store := p.2,
                 peerhaveIds := insertId p.1 x.peerhaveIds,
                 nDeltaRcvd := x.nDeltaRcvd + 1 }
      else
        let p := content_put_ex x.store content uuid 0 isPriv
        { x with store := p.2,
                 peerhaveIds := insertId p.1 x.peerhaveIds,
                 nFileRcvd := x.nFileRcvd + 1 }
    else
      if tok.length = 4 then
        let q := nid_from_uuid x.store (tok.getD 2 "") true isPriv
        match content_get q.2 q.1 with
        | none =>
          let p := content_put_ex q.2 content uuid q.1 isPriv
          let st := { p.2 with phantom := p.2.phantom.filter (fun n => n ≠ p.1) }
          let st := if !isPriv then content_make_public st p.1 else st
          { x with store := st, nDanglingFile := x.nDanglingFile + 1 }
        | some src =>
          let x := { x with store := q.2, nDeltaRcvd := x.nDeltaRcvd + 1 }
          atom_finish env x uuid (env.deltaApply src content) isPriv
      else
        atom_finish env { x with nFileRcvd := x.nFileRcvd + 1 } uuid content isPriv

/-- One pass of the `send_root` query loop: emit a `have` card per row
and, while `resync` is nonzero and the output exceeds `mxSend`, move
the `resync` cursor to one below the id just announced.  Returns the
output, the final cursor, and the successive cursor values. -/
def sweep (mx : Int) : Nat → String → List (String × Nat) → String × Nat × List Nat
  | r, out, [] => (out, r, [])
  | r, out, (u, nid) :: rest =>
    let out' := out ++ "have " ++ u ++ "\n"
    let r' := if r ≠ 0 ∧ mx < (out'.data.length : Int) then nid - 1 else r
    let rec' := sweep mx r' out' rest
    (rec'.1, rec'.2.1, r' :: rec'.2.2)

/-- Insert a row into a list that is sorted by descending id. -/
def insertDesc (p : String × Nat) : List (String × Nat) → List (String × Nat)
  | [] => [p]
  | q :: rest => if q.2 ≤ p.2 then p :: q :: rest else q :: insertDesc p rest

/-- Sort rows by descending id (the ORDER BY node.nid DESC of `send_root`). -/
def sortDesc : List (String × Nat) → List (String × Nat)
  | [] => []
  | p :: rest => insertDesc p (sortDesc rest)

/-- The rows scanned by `send_root`: in resync mode, all `node` rows
with id at most the cursor in descending order; otherwise the rows of
the `root` join.  The temp `peerhave` table stores integer record ids
in its single `uuid` column, so the SQL filter compares `node.uuid`
against the decimal renderings of those ids. -/
def send_root_rows (x : XferState) : List (String × Nat) :=
  let peerTexts := x.peerhaveIds.map (fun n => toString n)
  if x.resync ≠ 0 then
    sortDesc ((x.store.node.filter (fun p => p.2 ≤ x.resync && !(peerTexts.contains p.1))))
  else
    x.store.node.filter (fun p => x.store.root.contains p.2 && !(peerTexts.contains p.1))

/-- Translation of `send_root`: run the sweep over the query rows and
zero the cursor when no card was emitted.  Returns the state and the
number of cards sent. -/
def send_root (x : XferState) : XferState × Nat :=
  let rows := send_root_rows x
  let w := sweep x.mxSend x.resync x.pOut rows
  let cnt := rows.length
  let r := if cnt = 0 then 0 else w.2.1
  ({ x with pOut := w.1, resync := r }, cnt)

/-- Translation of `send_all`: a `have` card for every `node` row. -/
def send_all (x : XferState) : XferState :=
  { x with pOut := x.pOut ++ String.join (x.store.node.map (fun p => "have " ++ p.1 ++ "\n")) }

/-- Translation of `send_private`: when private syncing is on, an
`igot H 1` card for every private artifact. -/
def send_private (x : XferState) : XferState :=
  if x.syncPrivate then
    let rows := x.store.blobUuid.filter (fun p => x.store.privateIds.contains p.1)
    { x with pOut := x.pOut ++ String.join (rows.map (fun p => "igot " ++ p.2 ++ " 1\n")) }
  else x

/-- Per-request server handler state: the transfer state plus the local
flags of `page_xfer`. -/
structure SrvState where
  x : XferState
  g : GState
  isPull : Bool
  isPush : Bool
  isClone : Bool
  deltaFlag : Bool
  nErr : Nat
  nIneed : Nat
  uvCatalogSent : Bool
deriving DecidableEq

/-- Result of handling one request line: continue with the next line,
or break out of the card loop. -/
inductive StepRes where
  | cont (st : SrvState)
  | brk (st : SrvState)
deriving DecidableEq

/-- An error card emitted after `cgi_reset_content`: the reply so far is
discarded, the error card becomes the whole output, and the error
counter is bumped. -/
def errCard (st : SrvState) (msg : String) : SrvState :=
  { st with x := { st.x with pOut := "error " ++ msg ++ "\n" }, nErr := st.nErr + 1 }

/-- The closing `# timestamp` comment of a server reply. -/
def timestampCard (env : Env) (n : Nat) : String :=
  "# timestamp " ++ env.nowStr ++ " errors " ++ toString n ++ "\n"

/-- Largest record id in the `blob` table (`SELECT max(rid) FROM blob`). -/
def blobMaxRid (s : Store) : Nat :=
  s.blobUuid.foldl (fun m p => max m p.1) 0

/-- The sequential-seeding loop of the `clone` card: send blobs by
ascending id while the output is below `mxSend`, the deadline has not
passed and ids remain.  `fuel` bounds the iteration count. -/
def clone_loop (env : Env) (x : XferState) (iVers : Int) (seqno maxR : Nat) :
    Nat → XferState × Nat
  | 0 => (x, seqno)
  | fuel + 1 =>
    if x.mxSend > (x.pOut.data.length : Int) ∧ seqno ≤ maxR then
      if (env.now : Int) ≥ x.maxTime then (x, seqno)
      else
        let x' := if iVers ≥ 3 then env.sendCompressedFile x seqno
                  else send_node env x seqno none true
        clone_loop env x' iVers (seqno + 1) maxR fuel
    else (x, seqno)

/-- The non-versioned `clone` form: record clone/pull mode and turn on
delta sending. -/
def cloneDefault (st : SrvState) : SrvState :=
  { st with isClone := true, isPull := true, deltaFlag := true }

/-- Translation of the `atom` block of the `page_xfer` card loop:
write-authorization gate (terminal error), node acceptance, and the
terminal error when the receive routine recorded one. -/
def atom_step (env : Env) (st : SrvState) (tok : List String) (payload : Bytes) : StepRes :=
  if !st.isPush then .brk (errCard st "not authorized to write")
  else
    let x := xfer_accept_atom_node env st.x tok payload false
    if x.err ≠ "" then .brk (errCard { st with x := x } x.err)
    else .cont { st with x := x }

/-- Translation of the `list` block: same gating as `atom`, delegating
to `xfer_accept_list_node` (external to `src/`). -/
def list_step (env : Env) (st : SrvState) (tok : List String) (payload : Bytes) : StepRes :=
  if !st.isPush then .brk (errCard st "not authorized to write")
  else
    let x := env.acceptList st.x tok payload
    if x.err ≠ "" then .brk (errCard { st with x := x } x.err)
    else .cont { st with x := x }

/-- Translation of the `need` block: count the request and, when
pulling, resolve the name (no phantom) and send the artifact. -/
def need_step (env : Env) (st : SrvState) (tok : List String) : StepRes :=
  let st := { st with nIneed := st.nIneed + 1 }
  if st.isPull then
    let q := nid_from_uuid st.x.store (tok.getD 1 "") false false
    let x := { st.x with store := q.2 }
    let x := if q.1 ≠ 0 then send_node env x q.1 (some (tok.getD 1 "")) st.deltaFlag else x
    .cont { st with x := x }
  else .cont st

/-- Translation of the `have` block: only when pushing, resolve or
phantomize the name and record it in `peerhave`; otherwise nothing. -/
def have_step (_env : Env) (st : SrvState) (tok : List String) : StepRes :=
  if st.isPush then
    let q := nid_from_uuid st.x.store (tok.getD 1 "") true false
    let x := { st.x with store := q.2,
                         peerhaveIds := insertId q.1 st.x.peerhaveIds }
    .cont { st with x := x }
  else .cont st

/-- Translation of the `pull`/`push` block: project-code check
(terminal error), then the read gate (terminal error) or the write
gate, whose error card does not stop processing. -/
def pullpush_step (env : Env) (st : SrvState) (tok : List String) : StepRes :=
  if tok.getD 2 "" ≠ env.projCode then .brk (errCard st "wrong project")
  else if tok.headD "" = "pull" then
    if !st.g.perm.read then .brk (errCard st "not authorized to read")
    else .cont { st with isPull := true }
  else
    if !st.g.perm.write then
      if !st.isPull then
        .cont { st with x := { st.x with pOut := "error not authorized to write\n" },
                        nErr := st.nErr + 1 }
      else
        let x := { st.x with
                     pOut := st.x.pOut ++ "message pull only - not authorized to push\n" }
        .cont { st with x := x }
    else .cont { st with isPush := true }

/-- Translation of the `clone` block: clone-capability gate (terminal,
the `push` card preceding the error after the content reset), the
unversioned catalog, the versioned seqno loop or the default clone
mode, and the closing `push` card. -/
def clone_step (env : Env) (st : SrvState) (tok : List String) : StepRes :=
  if !st.g.perm.clone then
    let x := { st.x with pOut := "push " ++ env.serverCode ++ " "
                          ++ env.projCode ++ "\n" ++ "error not authorized to clone\n" }
    .brk { st with x := x, nErr := st.nErr + 1 }
  else
    let st := if env.uvSync && !st.uvCatalogSent then
        let x := env.sendUvCatalog { st.x with pOut := st.x.pOut ++ "pragma uv-pull-only\n" }
        { st with x := x, uvCatalogSent := true }
      else st
    let st :=
      if tok.length = 3 ∧ (blob_is_int (tok.getD 1 "")).getD 0 ≥ 2 then
        let iVers := (blob_is_int (tok.getD 1 "")).getD 0
        let seqno := ((blob_is_int (tok.getD 2 "")).getD 0).toNat
        let maxR := blobMaxRid st.x.store
        let w := clone_loop env st.x iVers seqno maxR (maxR + 2)
        let sq := if w.2 > maxR then 0 else w.2
        { st with x := { w.1 with pOut := w.1.pOut ++ "clone_seqno " ++ toString sq ++ "\n" } }
      else cloneDefault st
    .cont { st with x := { st.x with pOut := st.x.pOut ++ "push " ++ env.serverCode
                           ++ " " ++ env.projCode ++ "\n" } }

/-- Translation of the `login` block: debug bypass, tail-hash check,
then `check_login`; both verification failures are terminal errors. -/
def login_step (env : Env) (st : SrvState) (tok : List String) (rest : List Msg) : StepRes :=
  if env.disableLogin then
    .cont { st with g := { st.g with perm := { st.g.perm with
              read := true, write := true, priv := true, admin := true } } }
  else if !(env.tailOk (tok.getD 2 "") rest) then
    .brk (errCard st "login failed")
  else
    let p := check_login env st.g (tok.getD 1 "") (tok.getD 2 "") (tok.getD 3 "")
    if p.1 ≠ 0 then .brk (errCard { st with g := p.2 } "login failed")
    else .cont { st with g := p.2 }

/-- Translation of the unknown-card fallthrough: reset the reply to a
`bad command` error card and keep processing. -/
def unknown_step (st : SrvState) (tok : List String) : StepRes :=
  .cont { st with x := { st.x with
            pOut := "error bad command: " ++ String.intercalate " " tok ++ "\n" } }

/-- Translation of the body of the `page_xfer` card loop for a single
request line: dispatch on the keyword in the order of the C else-if
chain (`atom`, `list`, `need`, `have`, `pull`/`push`, `clone`, `login`,
unknown).  `rest` is the portion of the request after the current line,
used by the tail-hash check of a `login` card. -/
def page_step (env : Env) (st : SrvState) (m : Msg) (rest : List Msg) : StepRes :=
  match m with
  | .comment _ => .cont st
  | .blank => .cont st
  | .card tok payload =>
    if tok.headD "" = "atom" then atom_step env st tok payload
    else if tok.headD "" = "list" then list_step env st tok payload
    else if tok.headD "" = "need" && tok.length == 2 && blob_is_hname (tok.getD 1 "") then
      need_step env st tok
    else if tok.length == 2 && tok.headD "" = "have" && blob_is_hname (tok.getD 1 "") then
      have_step env st tok
    else if tok.length == 3 && (tok.headD "" = "pull" || tok.headD "" = "push")
            && blob_is_hname (tok.getD 2 "") then
      pullpush_step env st tok
    else if tok.headD "" = "clone" then clone_step env st tok
    else if tok.headD "" = "login" && tok.length == 4 then login_step env st tok rest
    else unknown_step st tok

/-- The card loop of `page_xfer`: process request lines in order until
the end of the input or a break. -/
def page_loop (env : Env) : SrvState → List Msg → SrvState
  | st, [] => st
  | st, m :: rest =>
    match page_step env st m rest with
    | .brk s => s
    | .cont s => page_loop env s rest

/-- The post-loop section of `page_xfer` before the closing timestamp:
`request_partials` when pushing, `send_all` (plus private igots) on an
initial clone, `create_list_node` and `send_root` on a pull. -/
def page_mid (env : Env) (st : SrvState) : SrvState :=
  let st := if st.isPush then { st with x := request_partials st.x 500 } else st
  if st.isClone && st.nIneed == 0 then
    let x := send_all st.x
    let x := if x.syncPrivate then send_private x else x
    { st with x := x }
  else if st.isPull then
    let x := { st.x with store := env.createListNode st.x.store }
    let x := (send_root x).1
    let x := if x.syncPrivate then send_private x else x
    { st with x := x }
  else st

/-- The post-loop section of `page_xfer` including the closing
`# timestamp ... errors N` comment, which is always appended. -/
def page_post (env : Env) (st : SrvState) : SrvState :=
  let st := page_mid env st
  { st with x := { st.x with pOut := st.x.pOut ++ timestampCard env st.nErr } }

/-- The server transfer state at the start of a request: mxSend and the
deadline from the `max-download` / `max-download-time` settings, all
counters zero. -/
def init_xfer (env : Env) (store : Store) : XferState :=
  { err := "", pOut := "", store := store,
    peerhaveIds := [], peerneed := [],
    nFileRcvd := 0, nDeltaRcvd := 0, nDanglingFile := 0,
    nFileSent := 0, nDeltaSent := 0, nIGotSent := 0, nPrivIGot := 0, nINeedSent := 0,
    mxSend := env.maxDownload,
    maxTime := (if env.maxDownloadTime < 1 then 1 else env.maxDownloadTime) + env.now,
    syncPrivate := false, remoteVersion := 0, remoteDate := 0, resync := 0,
    nextIsPrivate := false }

/-- The initial handler state of `page_xfer`: the login name defaults to
`anonymous` and the capability set comes from the HTTP-level credential
check (`login_set_anon_nobody_capabilities` / `login_check_credentials`,
external). -/
def init_srv (env : Env) (store : Store) : SrvState :=
  { x := init_xfer env store,
    g := { perm := env.initPerm, userUid := 0, zLogin := some "anonymous", zNonce := none },
    isPull := false, isPush := false, isClone := false, deltaFlag := false,
    nErr := 0, nIneed := 0, uvCatalogSent := false }

/-- Translation of `page_xfer`: the server-side request handler.  After
the schema check, run the card loop over the request lines and close
the reply. -/
def page_xfer (env : Env) (store : Store) (msgs : List Msg) : SrvState :=
  if env.schemaOutOfDate then
    let st := init_srv env store
    { st with x := { st.x with pOut := "error database schema is out-of-date on the server.\n" } }
  else
    page_post env (page_loop env (init_srv env store) msgs)

/-- The per-cycle observations of `client_sync` that feed the go/stop
decision at the end of a cycle (after `nCycle++`). -/
structure CycleObs where
  nFileRcvd : Nat
  nDeltaRcvd : Nat
  nDanglingFile : Nat
  newPhantom : Bool
  phantomExists : Bool
  nFileSent : Nat
  nDeltaSent : Nat
  uvDoPush : Bool
  nPrivIGot : Nat
  nCycle : Nat
  nUvGimmeSent : Nat
  nUvFileRcvd : Nat
  cloneFlag : Bool
  cloneSeqno : Int
  nArtifactRcvd : Nat
  nPriorArtifact : Nat
deriving DecidableEq

/-- Translation of the end-of-cycle go/stop decision of `client_sync`:
returns the `go` flag and the updated `mxPhantomReq` cap.  The cap is
reassigned only in the first branch (files received or new phantoms,
with phantoms remaining); every other branch keeps the previous value. -/
def client_go_update (mxPhantomReq : Nat) (o : CycleObs) : Nat × Nat :=
  let nFileRecv := o.nFileRcvd + o.nDeltaRcvd + o.nDanglingFile
  if (nFileRecv > 0 ∨ o.newPhantom) ∧ o.phantomExists then
    let m := nFileRecv * 2
    (1, if m < 200 then 200 else m)
  else if o.nFileSent + o.nDeltaSent > 0 ∨ o.uvDoPush then (1, mxPhantomReq)
  else if o.nPrivIGot > 0 ∧ o.nCycle = 1 then (1, mxPhantomReq)
  else if o.nUvGimmeSent > 0 ∧ (o.nUvFileRcvd > 0 ∨ o.nCycle < 3) then (1, mxPhantomReq)
  else if o.cloneFlag then
    if o.nCycle = 1 then (1, mxPhantomReq)
    else if nFileRecv > 0 then (1, mxPhantomReq)
    else if o.cloneSeqno > 0 ∧ o.nArtifactRcvd > o.nPriorArtifact then (1, mxPhantomReq)
    else (0, mxPhantomReq)
  else (0, mxPhantomReq)

/-- Rows sorted strictly descending by id (the shape of the resync
query result, whose ids are distinct and ordered by `nid DESC`). -/
def descBy : List (String × Nat) → Bool
  | [] => true
  | [_] => true
  | p :: q :: rest => (q.2 < p.2) && descBy (q :: rest)

/-- The resync-cursor invariant along one sweep: each successive cursor
value is at most the previous one, and whenever it changes it is one
below (hence strictly below) the id just announced. -/
def SweepOk (r : Nat) : List (String × Nat) → List Nat → Prop
  | [], tr => tr = []
  | p :: rest, tr =>
    match tr with
    | [] => False
    | r1 :: tr1 => r1 ≤ r ∧ (r1 = r ∨ (r1 + 1 = p.2 ∧ r1 < p.2)) ∧ SweepOk r1 rest tr1

/-- The empty capability set. -/
def permNone : Perm :=
  { read := false, write := false, clone := false, priv := false, admin := false }

/-- A 40-character SHA1-shaped hash name (all a). -/
def hashA : String := String.mk (List.replicate 40 'a')

/-- A 40-character SHA1-shaped hash name (all b). -/
def hashB : String := String.mk (List.replicate 40 'b')

/-- A 40-character project code (all c). -/
def hashP : String := String.mk (List.replicate 40 'c')

/-- The five bytes of the payload string hello. -/
def bHello : Bytes := [104, 101, 108, 108, 111]

/-- A store with no records. -/
def emptyStore : Store :=
  { node := [], contents := [], blobUuid := [], phantom := [], privateIds := [],
    root := [], partials := [], deltaSaved := [], nextId := 1 }

/-- Concrete external collaborators for closed evaluations: trivial
hash-and-delta primitives, project code `hashP`, fixed clock. -/
def baseEnv : Env :=
  { userTable := fun _ => none,
    sha1 := fun s => s,
    sha1SharedSecret := fun a _ => a,
    remoteUser := none,
    remoteUserOk := false,
    capSet := fun _ p => p,
    hashOk := fun _ _ => true,
    isShunned := fun _ => false,
    tailOk := fun _ _ => true,
    deltaApply := fun _ p => p,
    projCode := hashP,
    serverCode := "S",
    uvSync := false,
    schemaOutOfDate := false,
    disableLogin := false,
    initPerm := permNone,
    maxDownload := 5000000,
    maxDownloadTime := 30,
    now := 0,
    nowStr := "T",
    sendDeltaNative := fun x _ _ _ => (0, x),
    sendDeltaParent := fun x _ _ _ _ => (0, x),
    sendCompressedFile := fun x _ => x,
    sendUvCatalog := fun x => x,
    acceptList := fun x _ _ => x,
    createListNode := fun s => s }

/-- Environment for the hash-mismatch run: every hash verification fails
and the caller is authorized to write. -/
def envC1 : Env :=
  { baseEnv with hashOk := fun _ _ => false,
                 initPerm := { permNone with write := true } }

/-- A request that authorizes writing, submits an atom whose payload
does not hash to its name, and then attempts a pull. -/
def msgsC1 : List Msg :=
  [Msg.card ["push", "S", hashP] [],
   Msg.card ["atom", hashA, "5", "0", "5"] bHello,
   Msg.card ["pull", "S", hashP] []]

/-- C1: on a received atom whose content does not hash to its name, the
handler records the error and stops processing further cards, but it
still inserts the corrupted content into the store under that name
(`content_put_ex` runs regardless of the verification outcome), so an
artifact can be stored under a name that is not the hash of its
content.  The run below exhibits all of this: the mismatching payload
is stored under `hashA`, one session error is recorded, the trailing
`pull` card is never processed, and the reply carries the error card. -/
theorem C1_hash_mismatch_still_inserted :
  store_content_of (page_xfer envC1 emptyStore msgsC1).x.store hashA = some bHello
  ∧ (page_xfer envC1 emptyStore msgsC1).nErr = 1
  ∧ (page_xfer envC1 emptyStore msgsC1).isPull = false
  ∧ (page_xfer envC1 emptyStore msgsC1).x.pOut
      = "error wrong hash on received atom: " ++ hashA
        ++ "wrong hash on received artifact: " ++ hashA ++ "\n" ++ timestampCard envC1 1 :=
  ⟨rfl, rfl, rfl, rfl⟩

/-- Environment for the dead-delta-branch run: caller authorized to
write, verification succeeding. -/
def envC4 : Env := { baseEnv with initPerm := { permNone with write := true } }

/-- A request whose atom card carries a DELTASRC token (the four-token
form `atom HASH DELTASRC SIZE`). -/
def msgsC4 : List Msg :=
  [Msg.card ["push", "S", hashP] [],
   Msg.card ["atom", hashA, hashB, "5"] bHello]

/-- C4: an atom card carrying a DELTASRC token has four tokens, and the
receive routine rejects every four-token atom line as malformed (its
guard requires exactly five tokens), so the delta-resolution branch
(`nToken==4`) of `xfer_accept_atom_node` is unreachable.  The first
conjunct shows the rejection for arbitrary four-token atom lines; the
rest evaluates a concrete DELTASRC card: the reply is the malformed
error and the store is untouched (no phantom for the basis, no dangling
delta). -/
theorem C4_deltasrc_atom_rejected_malformed
    (env : Env) (x : XferState) (a h d sz : String) (p : Bytes) (c : Bool) :
  xfer_accept_atom_node env x [a, h, d, sz] p c
      = { x with err := x.err ++ "malformed atom line" }
  ∧ (page_xfer envC4 emptyStore msgsC4).x.pOut
      = "error malformed atom line\n" ++ timestampCard envC4 1
  ∧ (page_xfer envC4 emptyStore msgsC4).x.store = emptyStore :=
  ⟨rfl, rfl, rfl⟩

/-- Environment in which the tail-hash check fails for every login
card. -/
def envC2 : Env := { baseEnv with tailOk := fun _ _ => false }

/-- A request consisting of one anonymous login card. -/
def msgsC2 : List Msg := [Msg.card ["login", "anonymous", "n", "s"] []]

/-- C2 counterexample: an `anonymous` login card is not accepted
without any check.  With a failing tail hash the handler rejects the
request with `error login failed` and records one session error, so the
tail-hash verification does apply to anonymous logins (it runs before
`check_login` in the short-circuit disjunction). -/
theorem C2_anonymous_tail_hash_rejected :
  (page_xfer envC2 emptyStore msgsC2).x.pOut
      = "error login failed\n" ++ timestampCard envC2 1
  ∧ (page_xfer envC2 emptyStore msgsC2).nErr = 1 :=
  ⟨rfl, rfl⟩

/-- C2 (amended): `check_login` itself accepts the users `anonymous` and
`nobody` unconditionally, performing no signature verification, no user
lookup and no privilege change, so an accepted anonymous login leaves
the session with its existing anonymous capabilities; but in `page_xfer`
the tail-hash check still runs first, and only when it passes is the
login card accepted (leaving the handler state unchanged). -/
theorem C2_anonymous_no_signature_check
    (env : Env) (g : GState) (n s : String) (st : SrvState) (p : Bytes) (rest : List Msg)
    (hdl : env.disableLogin = false) (ht : env.tailOk n rest = true) :
  check_login env g "anonymous" n s = (0, g)
  ∧ check_login env g "nobody" n s = (0, g)
  ∧ page_step env st (.card ["login", "anonymous", n, s] p) rest = .cont st := by
  refine ⟨rfl, rfl, ?_⟩
  simp [page_step, login_step, hdl, ht, check_login]

/-- Witness for the amended C2 at a concrete environment and state. -/
theorem C2_anonymous_no_signature_check_witness :
  (baseEnv.disableLogin = false ∧ baseEnv.tailOk "n" [] = true)
  ∧ (check_login baseEnv (init_srv baseEnv emptyStore).g "anonymous" "n" "s"
       = (0, (init_srv baseEnv emptyStore).g)
     ∧ check_login baseEnv (init_srv baseEnv emptyStore).g "nobody" "n" "s"
       = (0, (init_srv baseEnv emptyStore).g)
     ∧ page_step baseEnv (init_srv baseEnv emptyStore)
         (.card ["login", "anonymous", "n", "s"] []) [] = .cont (init_srv baseEnv emptyStore)) :=
  ⟨⟨rfl, rfl⟩, C2_anonymous_no_signature_check baseEnv (init_srv baseEnv emptyStore).g
      "n" "s" (init_srv baseEnv emptyStore) [] [] rfl rfl⟩

/-- Environment with read capability (for the pull in the C3 run). -/
def envC3 : Env := { baseEnv with initPerm := { permNone with read := true } }

/-- A request with an unknown card followed by a pull. -/
def msgsC3 : List Msg := [Msg.card ["xyzzy"] [], Msg.card ["pull", "S", hashP] []]

/-- C3 counterexample: the handler emits `error bad command: xyzzy` for
the first card, yet card processing continues (the following `pull` is
still honoured, setting the pull flag) and the reply is not only the
error card: the closing timestamp comment follows it. -/
theorem C3_reply_not_only_error :
  (page_xfer envC3 emptyStore msgsC3).x.pOut
      = "error bad command: xyzzy\n" ++ timestampCard envC3 0
  ∧ (page_xfer envC3 emptyStore msgsC3).isPull = true :=
  ⟨rfl, rfl⟩

/-- Breaking out of the card loop means the remaining request lines are
never processed: the loop returns the break state immediately. -/
theorem page_loop_brk (env : Env) (st2 : SrvState) (m : Msg) (rest2 : List Msg)
    (st3 : SrvState) (h : page_step env st2 m rest2 = .brk st3) :
    page_loop env st2 (m :: rest2) = st3 := by
  simp [page_loop, h]

/-- Every break of the `atom` block leaves exactly an error card as the
reply and one more recorded error. -/
theorem atom_step_brk (env : Env) (st : SrvState) (tok : List String) (payload : Bytes)
    (st3 : SrvState) (h : atom_step env st tok payload = .brk st3) :
    st3.nErr = st.nErr + 1 ∧ ∃ msg, st3.x.pOut = "error " ++ msg ++ "\n" := by
  unfold atom_step at h
  repeat' (first | split at h | dsimp only at h)
  all_goals first
    | exact StepRes.noConfusion h
    | (injection h with h2; subst h2; exact ⟨rfl, _, rfl⟩)

/-- Every break of the `list` block leaves exactly an error card as the
reply and one more recorded error. -/
theorem list_step_brk (env : Env) (st : SrvState) (tok : List String) (payload : Bytes)
    (st3 : SrvState) (h : list_step env st tok payload = .brk st3) :
    st3.nErr = st.nErr + 1 ∧ ∃ msg, st3.x.pOut = "error " ++ msg ++ "\n" := by
  unfold list_step at h
  repeat' (first | split at h | dsimp only at h)
  all_goals first
    | exact StepRes.noConfusion h
    | (injection h with h2; subst h2; exact ⟨rfl, _, rfl⟩)

/-- Every break of the `pull`/`push` block leaves exactly an error card
as the reply and one more recorded error. -/
theorem pullpush_step_brk (env : Env) (st : SrvState) (tok : List String)
    (st3 : SrvState) (h : pullpush_step env st tok = .brk st3) :
    st3.nErr = st.nErr + 1 ∧ ∃ msg, st3.x.pOut = "error " ++ msg ++ "\n" := by
  unfold pullpush_step at h
  repeat' (first | split at h | dsimp only at h)
  all_goals first
    | exact StepRes.noConfusion h
    | (injection h with h2; subst h2; exact ⟨rfl, _, rfl⟩)

/-- Every break of the `login` block leaves exactly an error card as
the reply and one more recorded error. -/
theorem login_step_brk (env : Env) (st : SrvState) (tok : List String) (rest : List Msg)
    (st3 : SrvState) (h : login_step env st tok rest = .brk st3) :
    st3.nErr = st.nErr + 1 ∧ ∃ msg, st3.x.pOut = "error " ++ msg ++ "\n" := by
  unfold login_step at h
  repeat' (first | split at h | dsimp only at h)
  all_goals first
    | exact StepRes.noConfusion h
    | (injection h with h2; subst h2; exact ⟨rfl, _, rfl⟩)

/-- The only break of the `clone` block leaves the `push` card followed
by the unauthorized-clone error card as the whole reply. -/
theorem clone_step_brk (env : Env) (st : SrvState) (tok : List String)
    (st3 : SrvState) (h : clone_step env st tok = .brk st3) :
    st3.nErr = st.nErr + 1
    ∧ st3.x.pOut = "push " ++ env.serverCode ++ " " ++ env.projCode
        ++ "\n" ++ "error not authorized to clone\n" := by
  unfold clone_step at h
  repeat' (first | split at h | dsimp only at h)
  all_goals first
    | exact StepRes.noConfusion h
    | (injection h with h2; subst h2; exact ⟨rfl, rfl⟩)

/-- The `need` block never breaks out of the card loop. -/
theorem need_step_ne_brk (env : Env) (st : SrvState) (tok : List String)
    (st3 : SrvState) : need_step env st tok ≠ .brk st3 := by
  intro h
  unfold need_step at h
  repeat' (first | split at h | dsimp only at h)
  all_goals exact StepRes.noConfusion h

/-- The `have` block never breaks out of the card loop. -/
theorem have_step_ne_brk (env : Env) (st : SrvState) (tok : List String)
    (st3 : SrvState) : have_step env st tok ≠ .brk st3 := by
  intro h
  unfold have_step at h
  repeat' (first | split at h | dsimp only at h)
  all_goals exact StepRes.noConfusion h

/-- The unknown-card fallthrough never breaks out of the card loop. -/
theorem unknown_step_ne_brk (st : SrvState) (tok : List String)
    (st3 : SrvState) : unknown_step st tok ≠ .brk st3 := by
  intro h
  exact StepRes.noConfusion h

/-- Every terminal (breaking) path of the card loop discards all
earlier output -- the reply becomes exactly one error card, or the
`push` card followed by the unauthorized-clone error -- and records
exactly one more error. -/
theorem page_step_brk_shape (env : Env) (st2 : SrvState) (m : Msg) (rest2 : List Msg)
    (st3 : SrvState) (hbrk : page_step env st2 m rest2 = .brk st3) :
    st3.nErr = st2.nErr + 1
    ∧ ∃ msg, (st3.x.pOut = "error " ++ msg ++ "\n"
        ∨ st3.x.pOut = "push " ++ env.serverCode ++ " " ++ env.projCode
            ++ "\n" ++ "error not authorized to clone\n") := by
  unfold page_step at hbrk
  repeat' split at hbrk
  case _ => exact StepRes.noConfusion hbrk
  case _ => exact StepRes.noConfusion hbrk
  case _ => obtain ⟨h1, msg, h2⟩ := atom_step_brk env st2 _ _ st3 hbrk
            exact ⟨h1, msg, Or.inl h2⟩
  case _ => obtain ⟨h1, msg, h2⟩ := list_step_brk env st2 _ _ st3 hbrk
            exact ⟨h1, msg, Or.inl h2⟩
  case _ => exact absurd hbrk (need_step_ne_brk env _ _ st3)
  case _ => exact absurd hbrk (have_step_ne_brk env _ _ st3)
  case _ => obtain ⟨h1, msg, h2⟩ := pullpush_step_brk env st2 _ st3 hbrk
            exact ⟨h1, msg, Or.inl h2⟩
  case _ => obtain ⟨h1, h2⟩ := clone_step_brk env st2 _ st3 hbrk
            exact ⟨h1, "", Or.inr h2⟩
  case _ => obtain ⟨h1, msg, h2⟩ := login_step_brk env st2 _ _ st3 hbrk
            exact ⟨h1, msg, Or.inl h2⟩
  case _ => exact absurd hbrk (unknown_step_ne_brk _ _ st3)

/-- C3 (amended): the terminal error paths discard all earlier output
-- the reply becomes exactly the error card (prefixed by a `push` card
on the unauthorized-clone path) with one more recorded error -- and
card processing stops at that card; but the reply never consists of
only the error card: unless the schema check fails early, every reply
ends with the closing `# timestamp ... errors N` comment (post-loop
`ineed`/`have` cards may precede it); moreover the `bad command` error
card and the unauthorized-`push` error card do not terminate card
processing. -/
theorem C3_error_reply_shape (env : Env) (store : Store) (msgs : List Msg)
    (st : SrvState) (p : Bytes) (rest : List Msg)
    (h : env.schemaOutOfDate = false) :
  (∃ pre, (page_xfer env store msgs).x.pOut
      = pre ++ timestampCard env (page_xfer env store msgs).nErr)
  ∧ page_step env st (.card ["xyzzy"] p) rest
      = .cont { st with x := { st.x with pOut := "error bad command: xyzzy\n" } }
  ∧ (∀ (st2 : SrvState) (sc : String) (p2 : Bytes) (rest2 : List Msg),
      st2.g.perm.write = false → st2.isPull = false →
      blob_is_hname env.projCode = true →
      page_step env st2 (.card ["push", sc, env.projCode] p2) rest2
        = .cont { st2 with x := { st2.x with pOut := "error not authorized to write\n" },
                           nErr := st2.nErr + 1 })
  ∧ (∀ (st2 st3 : SrvState) (m : Msg) (rest2 : List Msg),
      page_step env st2 m rest2 = .brk st3 →
      st3.nErr = st2.nErr + 1
      ∧ (∃ msg, st3.x.pOut = "error " ++ msg ++ "\n"
          ∨ st3.x.pOut = "push " ++ env.serverCode ++ " " ++ env.projCode
              ++ "\n" ++ "error not authorized to clone\n")
      ∧ page_loop env st2 (m :: rest2) = st3) := by
  refine ⟨?_, rfl, ?_, ?_⟩
  · unfold page_xfer
    rw [if_neg (by simp [h])]
    exact ⟨(page_mid env (page_loop env (init_srv env store) msgs)).x.pOut, rfl⟩
  · intro st2 sc p2 rest2 hw hp hh
    have hh' : blob_is_hname (["push", sc, env.projCode].getD 2 "") = true := hh
    have hne : ¬(["push", sc, env.projCode].getD 2 "" ≠ env.projCode) := fun hc => hc rfl
    simp only [page_step, pullpush_step, hh', hw, hp, if_neg hne]
    rfl
  · intro st2 st3 m rest2 hbrk
    obtain ⟨h1, h2⟩ := page_step_brk_shape env st2 m rest2 st3 hbrk
    exact ⟨h1, h2, page_loop_brk env st2 m rest2 st3 hbrk⟩

/-- Witness for the amended C3 at a concrete run. -/
theorem C3_error_reply_shape_witness :
  baseEnv.schemaOutOfDate = false
  ∧ ((∃ pre, (page_xfer baseEnv emptyStore msgsC2).x.pOut
        = pre ++ timestampCard baseEnv (page_xfer baseEnv emptyStore msgsC2).nErr)
     ∧ page_step baseEnv (init_srv baseEnv emptyStore) (.card ["xyzzy"] []) []
        = .cont { (init_srv baseEnv emptyStore) with
                  x := { (init_srv baseEnv emptyStore).x with
                         pOut := "error bad command: xyzzy\n" } }
     ∧ (∀ (st2 : SrvState) (sc : String) (p2 : Bytes) (rest2 : List Msg),
        st2.g.perm.write = false → st2.isPull = false →
        blob_is_hname baseEnv.projCode = true →
        page_step baseEnv st2 (.card ["push", sc, baseEnv.projCode] p2) rest2
          = .cont { st2 with x := { st2.x with pOut := "error not authorized to write\n" },
                             nErr := st2.nErr + 1 })
     ∧ (∀ (st2 st3 : SrvState) (m : Msg) (rest2 : List Msg),
        page_step baseEnv st2 m rest2 = .brk st3 →
        st3.nErr = st2.nErr + 1
        ∧ (∃ msg, st3.x.pOut = "error " ++ msg ++ "\n"
            ∨ st3.x.pOut = "push " ++ baseEnv.serverCode ++ " " ++ baseEnv.projCode
                ++ "\n" ++ "error not authorized to clone\n")
        ∧ page_loop baseEnv st2 (m :: rest2) = st3)) :=
  ⟨rfl, C3_error_reply_shape baseEnv emptyStore msgsC2
      (init_srv baseEnv emptyStore) [] [] rfl⟩

/-- Environment with read capability for the C7 run. -/
def envC7 : Env := { baseEnv with initPerm := { permNone with read := true } }

/-- A request with a `have` card before any authorization, then a pull. -/
def msgsC7 : List Msg := [Msg.card ["have", hashA] [], Msg.card ["pull", "S", hashP] []]

/-- C7 counterexample: a `have` card arriving before write authorization
does not produce `error not authorized to write` and does not abort the
request: the handler silently ignores it (no error recorded, reply is
just the closing timestamp) and keeps processing (the following `pull`
is honoured). -/
theorem C7_have_without_auth_ignored :
  (page_xfer envC7 emptyStore msgsC7).x.pOut = timestampCard envC7 0
  ∧ (page_xfer envC7 emptyStore msgsC7).isPull = true
  ∧ (page_xfer envC7 emptyStore msgsC7).nErr = 0 :=
  ⟨rfl, rfl, rfl⟩

/-- C7 (amended): before write authorization an `atom` (or `list`) card
makes the handler emit `error not authorized to write` and break out of
the card loop, but a `have` card is silently ignored: the handler state
is completely unchanged and processing continues. -/
theorem C7_write_auth_amended (env : Env) (st : SrvState)
    (tokrest : List String) (hA : String) (p : Bytes) (rest : List Msg)
    (hpush : st.isPush = false) (hh : blob_is_hname hA = true) :
  page_step env st (.card ("atom" :: tokrest) p) rest
      = .brk (errCard st "not authorized to write")
  ∧ page_step env st (.card ["have", hA] p) rest = .cont st := by
  constructor
  · simp [page_step, atom_step, hpush]
  · simp [page_step, have_step, hpush, hh]

/-- Witness for the amended C7 at a concrete state. -/
theorem C7_write_auth_amended_witness :
  ((init_srv baseEnv emptyStore).isPush = false ∧ blob_is_hname hashA = true)
  ∧ (page_step baseEnv (init_srv baseEnv emptyStore)
       (.card ("atom" :: [hashA, "5", "0", "5"]) bHello) []
       = .brk (errCard (init_srv baseEnv emptyStore) "not authorized to write")
     ∧ page_step baseEnv (init_srv baseEnv emptyStore) (.card ["have", hashA] []) []
       = .cont (init_srv baseEnv emptyStore)) :=
  ⟨⟨rfl, by decide⟩, C7_write_auth_amended baseEnv (init_srv baseEnv emptyStore)
      [hashA, "5", "0", "5"] hashA bHello [] rfl (by decide)⟩

/-- Cycle observation: 1000 files received, phantoms remain. -/
def obsA : CycleObs :=
  { nFileRcvd := 1000, nDeltaRcvd := 0, nDanglingFile := 0,
    newPhantom := false, phantomExists := true, nFileSent := 0, nDeltaSent := 0,
    uvDoPush := false, nPrivIGot := 0, nCycle := 2, nUvGimmeSent := 0, nUvFileRcvd := 0,
    cloneFlag := false, cloneSeqno := 0, nArtifactRcvd := 0, nPriorArtifact := 0 }

/-- Cycle observation: nothing received, one file sent (the go decision
takes the files-queued branch, leaving the request cap untouched). -/
def obsB : CycleObs := { obsA with nFileRcvd := 0, nFileSent := 1 }

/-- A store holding 201 partial rows awaiting request. -/
def storeC8 : Store := { emptyStore with partials := List.replicate 201 ("u", 7) }

set_option maxRecDepth 4000

/-- C8 counterexample: the request cap is not re-derived every cycle.
After a cycle receiving 1000 files the cap becomes 2000; a following
cycle that receives nothing but sent a file keeps the stale cap of
2000; the next request round may then issue 201 `ineed` cards, which
exceeds the bound max(200, 2 x files-received-last-cycle) = max(200, 0)
= 200 claimed for every cycle. -/
theorem C8_gimme_cap_stale :
  (client_go_update 200 obsA).2 = 2000
  ∧ client_go_update 2000 obsB = (1, 2000)
  ∧ (request_partials (init_xfer baseEnv storeC8) 2000).nINeedSent = 201
  ∧ 201 > max 200 (2 * 0) :=
  ⟨rfl, rfl, rfl, by decide⟩

/-- C8 (amended): each cycle issues at most `mxPhantomReq` request
cards, and `mxPhantomReq` is set to max(200, 2 x files-received) by
every cycle whose go decision takes the phantom branch (files received
or new phantoms discovered, with phantoms remaining); other branches
leave the cap at its previous value, so the bound can be stale. -/
theorem C8_gimme_cap_amended (x : XferState) (maxReq m : Nat) (o : CycleObs)
    (hbr : (o.nFileRcvd + o.nDeltaRcvd + o.nDanglingFile > 0 ∨ o.newPhantom = true)
            ∧ o.phantomExists = true) :
  (request_partials x maxReq).nINeedSent ≤ x.nINeedSent + maxReq
  ∧ (client_go_update m o).2
      = max 200 (2 * (o.nFileRcvd + o.nDeltaRcvd + o.nDanglingFile)) := by
  constructor
  · have hlen : ((x.store.partials.filter
        (fun p => !(x.peerneed.contains p.1))).take maxReq).length ≤ maxReq := by
      rw [List.length_take]
      exact min_le_left _ _
    exact Nat.add_le_add_left hlen x.nINeedSent
  · have hc : ((o.nFileRcvd + o.nDeltaRcvd + o.nDanglingFile > 0 ∨ o.newPhantom)
        ∧ o.phantomExists) := by
      exact ⟨hbr.1, hbr.2⟩
    simp only [client_go_update, if_pos hc]
    split <;> omega

/-- Witness for the amended C8 at a concrete cycle. -/
theorem C8_gimme_cap_amended_witness :
  ((obsA.nFileRcvd + obsA.nDeltaRcvd + obsA.nDanglingFile > 0 ∨ obsA.newPhantom = true)
    ∧ obsA.phantomExists = true)
  ∧ ((request_partials (init_xfer baseEnv storeC8) 300).nINeedSent
        ≤ (init_xfer baseEnv storeC8).nINeedSent + 300
     ∧ (client_go_update 200 obsA).2
        = max 200 (2 * (obsA.nFileRcvd + obsA.nDeltaRcvd + obsA.nDanglingFile))) :=
  ⟨by decide, C8_gimme_cap_amended (init_xfer baseEnv storeC8) 300 200 obsA (by decide)⟩

/-- On any failing verification, `check_login` returns the global state
unchanged: privileges, user id and recorded login are set only in the
success branch. -/
theorem check_login_fail_eq (env : Env) (g : GState) (u n s : String) :
    (check_login env g u n s).1 ≠ 0 → (check_login env g u n s).2 = g := by
  unfold check_login
  dsimp only
  repeat' split
  all_goals first
    | (intro h; exact absurd rfl h)
    | (intro _; rfl)

/-- C9: when login verification fails -- the tail-hash check, or the
signature check together with its legacy retry -- the session privilege
state is unchanged: the resulting handler state keeps the same
capabilities, user id and recorded login (the reply becomes the
`error login failed` card), and `check_login` mutates the global state
only on success. -/
theorem C9_login_failure_preserves_state (env : Env) (st : SrvState)
    (u n s : String) (p : Bytes) (rest : List Msg)
    (hdl : env.disableLogin = false) :
  ((check_login env st.g u n s).1 ≠ 0 → (check_login env st.g u n s).2 = st.g)
  ∧ (env.tailOk n rest = false →
      page_step env st (.card ["login", u, n, s] p) rest
        = .brk { st with x := { st.x with pOut := "error login failed\n" },
                         nErr := st.nErr + 1 })
  ∧ ((check_login env st.g u n s).1 ≠ 0 → env.tailOk n rest = true →
      page_step env st (.card ["login", u, n, s] p) rest
        = .brk { st with x := { st.x with pOut := "error login failed\n" },
                         nErr := st.nErr + 1 }) := by
  refine ⟨check_login_fail_eq env st.g u n s, ?_, ?_⟩
  · intro ht
    have ht' : env.tailOk (["login", u, n, s].getD 2 "") rest = false := ht
    simp only [page_step, login_step, hdl, ht']
    rfl
  · intro h ht
    have ht' : env.tailOk (["login", u, n, s].getD 2 "") rest = true := ht
    have h' : (check_login env st.g (["login", u, n, s].getD 1 "")
        (["login", u, n, s].getD 2 "") (["login", u, n, s].getD 3 "")).1 ≠ 0 := h
    have h2 : (check_login env st.g (["login", u, n, s].getD 1 "")
        (["login", u, n, s].getD 2 "") (["login", u, n, s].getD 3 "")).2 = st.g :=
      check_login_fail_eq env st.g _ _ _ h'
    simp only [page_step, login_step, hdl, ht', if_pos h', h2]
    rfl

/-- Environment whose tail-hash check always fails (for the C9 witness). -/
def envC9 : Env := { baseEnv with tailOk := fun _ _ => false }

/-- Witness for C9 at a concrete failing login. -/
theorem C9_login_failure_preserves_state_witness :
  envC9.disableLogin = false
  ∧ (((check_login envC9 (init_srv envC9 emptyStore).g "alice" "n" "s").1 ≠ 0 →
        (check_login envC9 (init_srv envC9 emptyStore).g "alice" "n" "s").2
          = (init_srv envC9 emptyStore).g)
     ∧ (envC9.tailOk "n" [] = false →
        page_step envC9 (init_srv envC9 emptyStore) (.card ["login", "alice", "n", "s"] []) []
          = .brk { (init_srv envC9 emptyStore) with
                   x := { (init_srv envC9 emptyStore).x with pOut := "error login failed\n" },
                   nErr := (init_srv envC9 emptyStore).nErr + 1 })
     ∧ ((check_login envC9 (init_srv envC9 emptyStore).g "alice" "n" "s").1 ≠ 0 →
        envC9.tailOk "n" [] = true →
        page_step envC9 (init_srv envC9 emptyStore) (.card ["login", "alice", "n", "s"] []) []
          = .brk { (init_srv envC9 emptyStore) with
                   x := { (init_srv envC9 emptyStore).x with pOut := "error login failed\n" },
                   nErr := (init_srv envC9 emptyStore).nErr + 1 })) :=
  ⟨rfl, C9_login_failure_preserves_state envC9 (init_srv envC9 emptyStore)
      "alice" "n" "s" [] [] rfl⟩

/-- C5: when `send_node` reaches an artifact it would otherwise send
(not skipped as private, already-held, unnamed, SHA3-incompatible,
name-mismatched or shunned) and the wall-clock deadline has passed or
the outbound buffer has reached the mx-send cap, it emits exactly one
`have H` card -- with the private flag when the artifact is private --
bumps the announce counter, and changes nothing else: no artifact body,
no store change, no `peerhave` insertion. -/
theorem C5_backpressure_have_only (env : Env) (x : XferState) (rid : Nat)
    (pUuid : Option String) (nd : Bool)
    (hpriv : (content_is_private x.store rid && !x.syncPrivate) = false)
    (hph : x.peerhaveIds.contains rid = false)
    (hne : blobUuidOf x.store rid ≠ "")
    (hsha : ¬((blobUuidOf x.store rid).data.length > 40 ∧ x.remoteVersion < 20000))
    (hmatch : pUuid = none ∨ pUuid = some (blobUuidOf x.store rid))
    (hshun : env.isShunned (blobUuidOf x.store rid) = false)
    (hbp : (x.maxTime ≠ -1 ∧ (env.now : Int) ≥ x.maxTime)
           ∨ x.mxSend ≤ (x.pOut.data.length : Int)) :
  send_node env x rid pUuid nd =
    { x with pOut := x.pOut ++ (if content_is_private x.store rid
                  then "have " ++ blobUuidOf x.store rid ++ " 1\n"
                  else "have " ++ blobUuidOf x.store rid ++ "\n"),
             nIGotSent := x.nIGotSent + 1 } := by
  have htail : send_node_tail env x rid (blobUuidOf x.store rid)
      (content_is_private x.store rid) nd =
    { x with pOut := x.pOut ++ (if content_is_private x.store rid
                  then "have " ++ blobUuidOf x.store rid ++ " 1\n"
                  else "have " ++ blobUuidOf x.store rid ++ "\n"),
             nIGotSent := x.nIGotSent + 1 } := by
    unfold send_node_tail
    rw [if_neg (by simp [hshun]), if_pos hbp]
  rcases hmatch with hm | hm <;> subst hm <;>
    simp only [send_node, hpriv, Bool.false_eq_true, if_false, hph,
      if_neg hne, hsha, htail, ne_eq, not_false_eq_true, not_true_eq_false]

/-- Store for the C5 witness: one public artifact with hash `hashB`. -/
def storeC5 : Store := { emptyStore with blobUuid := [(1, hashB)] }

/-- Transfer state for the C5 witness: the outbound cap is already
reached (mxSend 0). -/
def xC5 : XferState := { init_xfer baseEnv storeC5 with mxSend := 0 }

/-- Witness for C5 at a concrete saturated-buffer send. -/
theorem C5_backpressure_have_only_witness :
  ((content_is_private xC5.store 1 && !xC5.syncPrivate) = false
   ∧ xC5.peerhaveIds.contains 1 = false
   ∧ blobUuidOf xC5.store 1 ≠ ""
   ∧ ¬((blobUuidOf xC5.store 1).data.length > 40 ∧ xC5.remoteVersion < 20000)
   ∧ ((none : Option String) = none ∨ (none : Option String) = some (blobUuidOf xC5.store 1))
   ∧ baseEnv.isShunned (blobUuidOf xC5.store 1) = false
   ∧ ((xC5.maxTime ≠ -1 ∧ (baseEnv.now : Int) ≥ xC5.maxTime)
      ∨ xC5.mxSend ≤ (xC5.pOut.data.length : Int)))
  ∧ send_node baseEnv xC5 1 none false =
    { xC5 with pOut := xC5.pOut ++ (if content_is_private xC5.store 1
                  then "have " ++ blobUuidOf xC5.store 1 ++ " 1\n"
                  else "have " ++ blobUuidOf xC5.store 1 ++ "\n"),
               nIGotSent := xC5.nIGotSent + 1 } :=
  ⟨⟨by decide, by decide, by decide, by decide, Or.inl rfl, rfl, by decide⟩,
   C5_backpressure_have_only baseEnv xC5 1 none false
     (by decide) (by decide) (by decide) (by decide) (Or.inl rfl) rfl (by decide)⟩

/-- Store for the C10 counterexample: record 5 is private and its blob
hash is `hashB`. -/
def storeC10 : Store := { emptyStore with privateIds := [5], blobUuid := [(5, hashB)] }

/-- Transfer state for the C10 counterexample: no private syncing, peer
recent enough to receive private `have` teasers. -/
def xC10 : XferState := { init_xfer baseEnv storeC10 with remoteDate := 20200413 }

/-- C10 counterexample: when the artifact is private (and private
syncing is off, with a recent peer), `send_node` called with an
expected name that differs from the stored hash does not emit nothing:
it emits a `have H 1` teaser carrying the expected name and bumps two
counters, because the privacy check runs before the stored hash is ever
compared with the expected name. -/
theorem C10_private_teaser_emits_have :
  send_node baseEnv xC10 5 (some hashA) false
    = { xC10 with pOut := xC10.pOut ++ "have " ++ hashA ++ " 1\n",
                  nIGotSent := xC10.nIGotSent + 1, nPrivIGot := xC10.nPrivIGot + 1 }
  ∧ blobUuidOf xC10.store 5 = hashB
  ∧ hashB ≠ hashA :=
  ⟨rfl, rfl, by decide⟩

/-- C10 (amended): for every `send_node` call given an expected name
that differs from the stored hash of the record id, no `file` card and
no artifact body is emitted and no artifact-sending state changes: the
file/delta counters, the `peerhave` set and the store are unchanged,
and the output grows by at most a `have` teaser (for a private
artifact) or the SHA3-capability error card; hence an artifact body is
never sent in answer to a need/gimme card under a name that does not
match its stored hash. -/
theorem C10_mismatch_no_body (env : Env) (x : XferState) (rid : Nat) (v : String)
    (nd : Bool) (hmm : blobUuidOf x.store rid ≠ v) :
  (send_node env x rid (some v) nd).nFileSent = x.nFileSent
  ∧ (send_node env x rid (some v) nd).nDeltaSent = x.nDeltaSent
  ∧ (send_node env x rid (some v) nd).peerhaveIds = x.peerhaveIds
  ∧ (send_node env x rid (some v) nd).store = x.store
  ∧ ∃ t, (send_node env x rid (some v) nd).pOut = x.pOut ++ t
      ∧ (t = "" ∨ t = "have " ++ v ++ " 1\n" ∨ t = sha3ErrCard) := by
  have hv : v ≠ blobUuidOf x.store rid := fun h => hmm h.symm
  by_cases h1 : (content_is_private x.store rid && !x.syncPrivate) = true
  · by_cases h2 : x.remoteDate ≥ 20200413 ∧ pUuidNonEmpty (some v)
    · have e : send_node env x rid (some v) nd
          = { x with pOut := x.pOut ++ "have " ++ v ++ " 1\n",
                     nIGotSent := x.nIGotSent + 1, nPrivIGot := x.nPrivIGot + 1 } := by
        simp only [send_node]
        rw [if_pos h1, if_pos h2]
        rfl
      rw [e]
      exact ⟨rfl, rfl, rfl, rfl, "have " ++ v ++ " 1\n",
        by simp [String.append_assoc], Or.inr (Or.inl rfl)⟩
    · have e : send_node env x rid (some v) nd = x := by
        simp only [send_node]
        rw [if_pos h1, if_neg h2]
      rw [e]
      exact ⟨rfl, rfl, rfl, rfl, "", by simp, Or.inl rfl⟩
  · by_cases h3 : x.peerhaveIds.contains rid = true
    · have e : send_node env x rid (some v) nd = x := by
        simp only [send_node]
        rw [if_neg h1, if_pos h3]
      rw [e]
      exact ⟨rfl, rfl, rfl, rfl, "", by simp, Or.inl rfl⟩
    · by_cases h4 : blobUuidOf x.store rid = ""
      · have e : send_node env x rid (some v) nd = x := by
          simp only [send_node]
          rw [if_neg h1, if_neg h3, if_pos h4]
        rw [e]
        exact ⟨rfl, rfl, rfl, rfl, "", by simp, Or.inl rfl⟩
      · by_cases h5 : (blobUuidOf x.store rid).data.length > 40 ∧ x.remoteVersion < 20000
        · have e : send_node env x rid (some v) nd
              = { x with pOut := x.pOut ++ sha3ErrCard } := by
            simp only [send_node]
            rw [if_neg h1, if_neg h3, if_neg h4, if_pos h5]
          rw [e]
          exact ⟨rfl, rfl, rfl, rfl, sha3ErrCard, rfl, Or.inr (Or.inr rfl)⟩
        · have e : send_node env x rid (some v) nd = x := by
            simp only [send_node]
            rw [if_neg h1, if_neg h3, if_neg h4, if_neg h5, if_pos hv]
          rw [e]
          exact ⟨rfl, rfl, rfl, rfl, "", by simp, Or.inl rfl⟩

/-- Store for the C10 witness: a public record 3 with hash `hashB`. -/
def storeW10 : Store := { emptyStore with blobUuid := [(3, hashB)] }

/-- Witness for the amended C10 at a concrete mismatched request. -/
theorem C10_mismatch_no_body_witness :
  blobUuidOf (init_xfer baseEnv storeW10).store 3 ≠ hashA
  ∧ ((send_node baseEnv (init_xfer baseEnv storeW10) 3 (some hashA) false).nFileSent
        = (init_xfer baseEnv storeW10).nFileSent
     ∧ (send_node baseEnv (init_xfer baseEnv storeW10) 3 (some hashA) false).nDeltaSent
        = (init_xfer baseEnv storeW10).nDeltaSent
     ∧ (send_node baseEnv (init_xfer baseEnv storeW10) 3 (some hashA) false).peerhaveIds
        = (init_xfer baseEnv storeW10).peerhaveIds
     ∧ (send_node baseEnv (init_xfer baseEnv storeW10) 3 (some hashA) false).store
        = (init_xfer baseEnv storeW10).store
     ∧ ∃ t, (send_node baseEnv (init_xfer baseEnv storeW10) 3 (some hashA) false).pOut
        = (init_xfer baseEnv storeW10).pOut ++ t
        ∧ (t = "" ∨ t = "have " ++ hashA ++ " 1\n" ∨ t = sha3ErrCard)) :=
  ⟨by decide, C10_mismatch_no_body baseEnv (init_xfer baseEnv storeW10) 3 hashA false (by decide)⟩

/-- Unfolding equation of `descBy` on two or more rows. -/
theorem descBy_cons (p q : String × Nat) (l : List (String × Nat)) :
    descBy (p :: q :: l) = ((q.2 < p.2) && descBy (q :: l)) := rfl

/-- The tail of a descending row list is descending. -/
theorem descBy_tail (p : String × Nat) (rest : List (String × Nat))
    (h : descBy (p :: rest) = true) : descBy rest = true := by
  cases rest with
  | nil => rfl
  | cons a l =>
    simp only [descBy, Bool.and_eq_true] at h
    exact h.2

/-- In a descending row list, every later id is below the head id. -/
theorem descBy_lt_head (p : String × Nat) (rest : List (String × Nat))
    (h : descBy (p :: rest) = true) : ∀ q ∈ rest, q.2 < p.2 := by
  induction rest generalizing p with
  | nil => intro q hq; cases hq
  | cons a l ih =>
    intro q hq
    rw [descBy_cons, Bool.and_eq_true, decide_eq_true_eq] at h
    rcases List.mem_cons.mp hq with hq | hq
    · subst hq; exact h.1
    · exact lt_trans (ih a h.2 q hq) h.1

/-- The sweep invariant holds along the `send_root` loop whenever the
rows are strictly descending, positive, and bounded by the cursor. -/
theorem sweep_ok_aux (mx : Int) (rows : List (String × Nat)) :
    ∀ (r0 : Nat) (out : String), descBy rows = true →
    (∀ q ∈ rows, 1 ≤ q.2 ∧ q.2 ≤ r0) →
    SweepOk r0 rows (sweep mx r0 out rows).2.2 := by
  induction rows with
  | nil => intro r0 out _ _; simp [sweep, SweepOk]
  | cons p rest ih =>
    intro r0 out hdesc hran
    have hp := hran p (List.mem_cons_self p rest)
    simp only [sweep, SweepOk]
    constructor
    · split
      · omega
      · omega
    constructor
    · split
      · exact Or.inr ⟨by omega, by omega⟩
      · exact Or.inl rfl
    · split
      · exact ih (p.2 - 1) (out ++ "have " ++ p.1 ++ "\n") (descBy_tail p rest hdesc)
          (fun q hq => ⟨(hran q (List.mem_cons_of_mem p hq)).1,
            by have := descBy_lt_head p rest hdesc q hq; omega⟩)
      · exact ih r0 (out ++ "have " ++ p.1 ++ "\n") (descBy_tail p rest hdesc)
          (fun q hq => hran q (List.mem_cons_of_mem p hq))

/-- C6: across one execution of the `send_root` sweep over its query
rows (`ORDER BY nid DESC`, ids positive and at most the cursor), the
resync cursor is non-increasing and every update sets it exactly one
below -- hence strictly below -- the id just announced (`SweepOk`), and
a sweep that announces no card sets the cursor to zero. -/
theorem C6_resync_monotone (mx : Int) (rows : List (String × Nat)) (out : String) (r0 : Nat)
    (hdesc : descBy rows = true)
    (hran : ∀ q ∈ rows, 1 ≤ q.2 ∧ q.2 ≤ r0) :
  SweepOk r0 rows (sweep mx r0 out rows).2.2
  ∧ (∀ y : XferState, send_root_rows y = [] → (send_root y).1.resync = 0) := by
  refine ⟨sweep_ok_aux mx rows r0 out hdesc hran, ?_⟩
  intro y hy
  simp [send_root, hy, sweep]

/-- Witness for C6 on a concrete three-row sweep with a saturated
output cap (every row updates the cursor: 10, 7, 3 announce and the
cursor moves 10 to 9 to 6 to 2). -/
theorem C6_resync_monotone_witness :
  (descBy [("a", 10), ("b", 7), ("c", 3)] = true
   ∧ ∀ q ∈ [(("a" : String), (10 : Nat)), ("b", 7), ("c", 3)], 1 ≤ q.2 ∧ q.2 ≤ 10)
  ∧ (SweepOk 10 [("a", 10), ("b", 7), ("c", 3)]
       (sweep 0 10 "" [("a", 10), ("b", 7), ("c", 3)]).2.2
     ∧ ∀ y : XferState, send_root_rows y = [] → (send_root y).1.resync = 0) :=
  ⟨⟨by decide, by decide⟩,
   C6_resync_monotone 0 [("a", 10), ("b", 7), ("c", 3)] "" 10 (by decide) (by decide)⟩
